import Mathlib

/-!
Shallow embedding of the `rustpostal` crate (Rust bindings for libpostal).

The native libpostal library is modelled as an environment value
(`NativeEnv`): each native entry point becomes a field of the
environment, and every shim function additionally returns the list of
native calls it issued (`List NativeCall`), in order, so that claims
about "which native calls happen and when" can be stated.

Pointers to C strings are modelled as `Option String` (null = `none`);
native arrays are modelled as Lean lists.  Memory management
(`CString::from_raw`, `libc::free`) is not a libpostal call and is not
traced; the libpostal destructor calls
(`libpostal_address_parser_response_destroy`,
`libpostal_expansion_array_destroy`) are traced.
-/

/-- Trace events: one constructor per native libpostal entry point used by
the crate (src/ffi.rs). -/
inductive NativeCall where
  | setup
  | setupParser
  | setupClassifier
  | teardown
  | teardownParser
  | teardownClassifier
  | getAddressParserDefaultOptions
  | parseAddress
  | addressParserResponseDestroy
  | getDefaultOptions
  | expandAddress
  | expansionArrayDestroy (n : Nat)
  deriving DecidableEq, Repr

/-- Model of `ffi::libpostal_address_parser_options` (src/ffi.rs): two
nullable C-string pointers. -/
structure libpostal_address_parser_options where
  language : Option String
  country : Option String
  deriving DecidableEq, Repr

/-- Model of `ffi::libpostal_address_parser_response` (src/ffi.rs):
`num_components` plus the two parallel arrays of C strings.  The arrays
are modelled as lists; the native contract is that both have
`num_components` entries (stated as hypotheses where needed, not baked
into the type). -/
structure libpostal_address_parser_response where
  num_components : Nat
  components : List String
  labels : List String
  deriving DecidableEq, Repr

/-- Model of `ffi::libpostal_normalize_options` (src/ffi.rs): the
language array (with its separately stored count), the u16 component
bitmask, and the 18 boolean string-transform toggles, field for field. -/
structure libpostal_normalize_options where
  languages : List String
  num_languages : Nat
  address_components : Nat
  latin_ascii : Bool
  transliterate : Bool
  strip_accents : Bool
  decompose : Bool
  lowercase : Bool
  trim_string : Bool
  drop_parentheticals : Bool
  replace_numeric_hyphens : Bool
  delete_numeric_hyphens : Bool
  split_alpha_from_numeric : Bool
  replace_word_hyphens : Bool
  delete_word_hyphens : Bool
  delete_final_periods : Bool
  delete_acronym_periods : Bool
  drop_english_possessives : Bool
  delete_apostrophes : Bool
  expand_numex : Bool
  roman_numerals : Bool
  deriving DecidableEq, Repr

/-- The native library, as a pure environment: the boolean results of the
three setup entry points, the two default-options getters, and the two
query entry points.  `parse_address` may return null (`none`); the
expansion result array may contain null entries (`Option String`), its
length is the count `n` the native call reports. -/
structure NativeEnv where
  setupOk : Bool
  setupParserOk : Bool
  setupClassifierOk : Bool
  address_parser_default_options : libpostal_address_parser_options
  default_options : libpostal_normalize_options
  parse_address : String → libpostal_address_parser_options →
    Option libpostal_address_parser_response
  expand_address : String → libpostal_normalize_options → List (Option String)

/-- Whether a string contains an embedded null byte. -/
def containsNul (s : String) : Bool := s.toList.contains (Char.ofNat 0)

/-- Model of `std::ffi::NulError`. -/
inductive NulError where
  | mk
  deriving DecidableEq, Repr

/-- Model of `error::SetupError` (src/error.rs). -/
inductive SetupError where
  | mk
  deriving DecidableEq, Repr

/-- Model of `CString::new`: fails exactly when the string contains an
embedded null byte; a successful `CString` is modelled by the string
itself. -/
def CString.new (s : String) : Except NulError String :=
  if containsNul s then Except.error NulError.mk else Except.ok s

/-- Outcome of a computation that may return, error, or terminate the
process (`process::exit`). -/
inductive ProcOutcome (α : Type) where
  | ok (a : α)
  | err (e : SetupError)
  | exited (code : Nat)
  deriving DecidableEq, Repr

/-- Model of `LibModules` (src/lib.rs). -/
inductive LibModules where
  | Address
  | Expand
  | All
  deriving DecidableEq, Repr

/-- Model of `setup_parser` (src/lib.rs lines 53-57): calls
`libpostal_setup_parser` and exits the process with code 1 if it fails. -/
def setupParserFn (env : NativeEnv) : ProcOutcome Unit × List NativeCall :=
  if env.setupParserOk then (ProcOutcome.ok (), [NativeCall.setupParser])
  else (ProcOutcome.exited 1, [NativeCall.setupParser])

/-- Model of `setup_classifier` (src/lib.rs lines 59-63): calls
`libpostal_setup_language_classifier` and exits the process with code 1
if it fails. -/
def setupClassifierFn (env : NativeEnv) : ProcOutcome Unit × List NativeCall :=
  if env.setupClassifierOk then (ProcOutcome.ok (), [NativeCall.setupClassifier])
  else (ProcOutcome.exited 1, [NativeCall.setupClassifier])

/-- Model of `LibModules::setup` (src/lib.rs lines 87-104): calls
`libpostal_setup`, returning `Err(SetupError)` if it fails; then runs the
subsystem setup helpers, which exit the process on failure. -/
def LibModules.setup (env : NativeEnv) (m : LibModules) :
    ProcOutcome Unit × List NativeCall :=
  if env.setupOk = false then (ProcOutcome.err SetupError.mk, [NativeCall.setup])
  else
    let sub : ProcOutcome Unit × List NativeCall :=
      match m with
      | LibModules.Expand => setupClassifierFn env
      | LibModules.Address => setupParserFn env
      | LibModules.All =>
        match setupParserFn env with
        | (ProcOutcome.ok _, t1) =>
          let r2 := setupClassifierFn env
          (r2.1, t1 ++ r2.2)
        | (r1, t1) => (r1, t1)
    (sub.1, NativeCall.setup :: sub.2)

/-- Model of `<LibModules as Drop>::drop` (src/lib.rs lines 107-120): the
teardown calls issued when a `LibModules` value is dropped.  The function
depends only on the module value — the source has no lifecycle state to
consult, so the calls are issued unconditionally on drop. -/
def LibModules.drop (m : LibModules) : List NativeCall :=
  NativeCall.teardown ::
    match m with
    | LibModules.Expand => [NativeCall.teardownClassifier]
    | LibModules.Address => [NativeCall.teardownParser]
    | LibModules.All => [NativeCall.teardownParser, NativeCall.teardownClassifier]

/-- Model of `address::AddressParserResponse` (src/address.rs lines 31-35):
the two parallel vectors of owned strings. -/
structure AddressParserResponse where
  tokens : List String
  labels : List String
  deriving DecidableEq, Repr

/-- Model of `AddressParserResponse::new` (via `Default`): both vectors
empty. -/
def AddressParserResponse.new : AddressParserResponse :=
  { tokens := [], labels := [] }

/-- Model of `IntoIterator for AddressParserResponse` (src/address.rs
lines 44-62): iteration yields `(label, token)` pairs, zipping the two
vectors. -/
def AddressParserResponse.intoIter (self : AddressParserResponse) :
    List (String × String) :=
  self.labels.zip self.tokens

/-- Model of `address::AddressParserOptions` (src/address.rs lines 65-69):
two optional owned C strings (already checked to be null-free on
construction). -/
structure AddressParserOptions where
  language : Option String
  country : Option String
  deriving DecidableEq, Repr

/-- Model of `AddressParserOptions::new` (src/address.rs lines 84-98):
each given hint goes through `CString::new`, which rejects embedded null
bytes. -/
def AddressParserOptions.new (language country : Option String) :
    Except NulError AddressParserOptions := do
  let c_lang ← match language with
    | some s => Except.map some (CString.new s)
    | none => Except.ok none
  let c_country ← match country with
    | some s => Except.map some (CString.new s)
    | none => Except.ok none
  Except.ok { language := c_lang, country := c_country }

/-- Model of `AddressParserOptions::update_ffi_language` (src/address.rs
lines 116-120): overwrite the native language pointer if a hint is set. -/
def AddressParserOptions.update_ffi_language (self : AddressParserOptions)
    (options : libpostal_address_parser_options) :
    libpostal_address_parser_options :=
  match self.language with
  | some l => { options with language := some l }
  | none => options

/-- Model of `AddressParserOptions::update_ffi_country` (src/address.rs
lines 122-126): overwrite the native country pointer if a hint is set. -/
def AddressParserOptions.update_ffi_country (self : AddressParserOptions)
    (options : libpostal_address_parser_options) :
    libpostal_address_parser_options :=
  match self.country with
  | some c => { options with country := some c }
  | none => options

/-- The native parse options that `AddressParserOptions::parse` builds
(src/address.rs lines 160-162): fetch the native defaults, then apply the
language and country hints. -/
def AddressParserOptions.ffiOptions (env : NativeEnv)
    (self : AddressParserOptions) : libpostal_address_parser_options :=
  self.update_ffi_country (self.update_ffi_language env.address_parser_default_options)

/-- Model of the copy loop of `AddressParserOptions::parse` (src/address.rs
lines 166-173): for `i` in `0..num_components`, push `components[i]` onto
`tokens` and `labels[i]` onto `labels`.  The out-of-bounds default `""`
stands in for the (never exercised under the native contract) pointer
read past the array end. -/
def parseCopyLoop (parsed : libpostal_address_parser_response) :
    AddressParserResponse :=
  (List.range parsed.num_components).foldl
    (fun r i =>
      { tokens := r.tokens ++ [parsed.components.getD i ""],
        labels := r.labels ++ [parsed.labels.getD i ""] })
    AddressParserResponse.new

/-- Model of `AddressParserOptions::parse` (src/address.rs lines 155-180):
reject embedded null bytes before any native call; otherwise fetch the
native default parse options, apply the hints, call the native parser,
copy out the components in emission order if the response is non-null
(empty response otherwise), and destroy the native response exactly once
in either case. -/
def AddressParserOptions.parse (env : NativeEnv) (self : AddressParserOptions)
    (address : String) :
    Except NulError AddressParserResponse × List NativeCall :=
  match CString.new address with
  | Except.error e => (Except.error e, [])
  | Except.ok c_address =>
    let ffi_options := self.ffiOptions env
    let raw := env.parse_address c_address ffi_options
    let response :=
      match raw with
      | some parsed => parseCopyLoop parsed
      | none => AddressParserResponse.new
    (Except.ok response,
      [NativeCall.getAddressParserDefaultOptions,
       NativeCall.parseAddress,
       NativeCall.addressParserResponseDestroy])

/-- Model of `address::parse_address` (src/address.rs lines 190-197):
build the options from the hints, then parse. -/
def parse_address (env : NativeEnv) (address : String)
    (language country : Option String) :
    Except NulError AddressParserResponse × List NativeCall :=
  match AddressParserOptions.new language country with
  | Except.error e => (Except.error e, [])
  | Except.ok options => options.parse env address

/-- Model of `address::ParsedAddress` (src/address.rs lines 203-206): the
backing `HashMap<String, String>` is modelled as a function
`String → Option String`. -/
structure ParsedAddress where
  label_to_token : String → Option String

/-- Model of `ParsedAddress::default`: the empty map. -/
def ParsedAddress.default : ParsedAddress :=
  { label_to_token := fun _ => none }

/-- Model of `HashMap::insert`: point update of the map. -/
def mapInsert (m : String → Option String) (k v : String) :
    String → Option String :=
  fun x => if x = k then some v else m x

/-- Model of `From<AddressParserResponse> for ParsedAddress`
(src/address.rs lines 300-309): fold the `(label, token)` pairs in
iteration order into the map, each insert overwriting any earlier token
for the same label. -/
def ParsedAddress.from_response (response : AddressParserResponse) :
    ParsedAddress :=
  { label_to_token :=
      response.intoIter.foldl (fun m p => mapInsert m p.1 p.2)
        ParsedAddress.default.label_to_token }

/-- Getter `ParsedAddress::house` (src/address.rs lines 209-211). -/
def ParsedAddress.house (self : ParsedAddress) : Option String :=
  self.label_to_token "house"

/-- Getter `ParsedAddress::house_number` (src/address.rs lines 213-215). -/
def ParsedAddress.house_number (self : ParsedAddress) : Option String :=
  self.label_to_token "house_number"

/-- Getter `ParsedAddress::po_box` (src/address.rs lines 217-219). -/
def ParsedAddress.po_box (self : ParsedAddress) : Option String :=
  self.label_to_token "po_box"

/-- Getter `ParsedAddress::road` (src/address.rs lines 241-243). -/
def ParsedAddress.road (self : ParsedAddress) : Option String :=
  self.label_to_token "road"

/-- Getter `ParsedAddress::city` (src/address.rs lines 257-259). -/
def ParsedAddress.city (self : ParsedAddress) : Option String :=
  self.label_to_token "city"

/-- Getter `ParsedAddress::postcode` (src/address.rs lines 275-277). -/
def ParsedAddress.postcode (self : ParsedAddress) : Option String :=
  self.label_to_token "postcode"

/-- Getter `ParsedAddress::country` (src/address.rs lines 283-285). -/
def ParsedAddress.country (self : ParsedAddress) : Option String :=
  self.label_to_token "country"

/-- Getter `ParsedAddress::telephone` (src/address.rs lines 295-297).
The remaining getters of the source (building, entrance, staircase,
level, unit, metro_station, suburb, city_district, state_district,
island, state, country_region, world_region, website) all follow the
same one-line pattern `self.label_to_token <label>`. -/
def ParsedAddress.telephone (self : ParsedAddress) : Option String :=
  self.label_to_token "telephone"

/-- Model of `expand::StringOptions` (src/expand.rs lines 37-60): a u32
bitset of active string-transform options. -/
structure StringOptions where
  bits : Nat
  deriving DecidableEq, Repr

/-- Flag `StringOptions::TRANSLITERATE` (bit 0). -/
def StringOptions.TRANSLITERATE : StringOptions := { bits := 1 }

/-- Flag `StringOptions::STRIP_ACCENTS` (bit 1). -/
def StringOptions.STRIP_ACCENTS : StringOptions := { bits := 2 }

/-- Flag `StringOptions::DECOMPOSE` (bit 2). -/
def StringOptions.DECOMPOSE : StringOptions := { bits := 4 }

/-- Flag `StringOptions::LOWERCASE` (bit 3). -/
def StringOptions.LOWERCASE : StringOptions := { bits := 8 }

/-- Flag `StringOptions::TRIM_STRING` (bit 4). -/
def StringOptions.TRIM_STRING : StringOptions := { bits := 16 }

/-- Flag `StringOptions::DROP_PARENTHETICALS` (bit 5). -/
def StringOptions.DROP_PARENTHETICALS : StringOptions := { bits := 32 }

/-- Flag `StringOptions::REPLACE_NUMERIC_HYPHENS` (bit 6). -/
def StringOptions.REPLACE_NUMERIC_HYPHENS : StringOptions := { bits := 64 }

/-- Flag `StringOptions::DELETE_NUMERIC_HYPHENS` (bit 7). -/
def StringOptions.DELETE_NUMERIC_HYPHENS : StringOptions := { bits := 128 }

/-- Flag `StringOptions::SPLIT_ALPHA_FROM_NUMERIC` (bit 8). -/
def StringOptions.SPLIT_ALPHA_FROM_NUMERIC : StringOptions := { bits := 256 }

/-- Flag `StringOptions::REPLACE_WORD_HYPHENS` (bit 9). -/
def StringOptions.REPLACE_WORD_HYPHENS : StringOptions := { bits := 512 }

/-- Flag `StringOptions::DELETE_WORD_HYPHENS` (bit 10). -/
def StringOptions.DELETE_WORD_HYPHENS : StringOptions := { bits := 1024 }

/-- Flag `StringOptions::DELETE_FINAL_PERIODS` (bit 11). -/
def StringOptions.DELETE_FINAL_PERIODS : StringOptions := { bits := 2048 }

/-- Flag `StringOptions::DELETE_ACRONYM_PERIODS` (bit 12). -/
def StringOptions.DELETE_ACRONYM_PERIODS : StringOptions := { bits := 4096 }

/-- Flag `StringOptions::DROP_ENGLISH_POSSESSIVES` (bit 13). -/
def StringOptions.DROP_ENGLISH_POSSESSIVES : StringOptions := { bits := 8192 }

/-- Flag `StringOptions::DELETE_APOSTROPHES` (bit 14). -/
def StringOptions.DELETE_APOSTROPHES : StringOptions := { bits := 16384 }

/-- Flag `StringOptions::EXPAND_NUMEX` (bit 15). -/
def StringOptions.EXPAND_NUMEX : StringOptions := { bits := 32768 }

/-- Flag `StringOptions::ROMAN_NUMERALS` (bit 16). -/
def StringOptions.ROMAN_NUMERALS : StringOptions := { bits := 65536 }

/-- Flag `StringOptions::LATIN_ASCII` (bit 17). -/
def StringOptions.LATIN_ASCII : StringOptions := { bits := 131072 }

/-- Model of `bitflags` `contains`: all bits of `other` are present in
`self`. -/
def StringOptions.contains (self other : StringOptions) : Bool :=
  self.bits &&& other.bits == other.bits

/-- Model of `bitflags` `insert`: bitwise union. -/
def StringOptions.insert (self other : StringOptions) : StringOptions :=
  { bits := self.bits ||| other.bits }

/-- Model of `expand::AddressComponents` (src/expand.rs lines 62-81): a
u16 bitset of active address components. -/
structure AddressComponents where
  bits : Nat
  deriving DecidableEq, Repr

/-- Model of `bitflags` `insert` for `AddressComponents`. -/
def AddressComponents.insert (self other : AddressComponents) :
    AddressComponents :=
  { bits := self.bits ||| other.bits }

/-- Model of `expand::LibpostalNormalizeOptions` (src/expand.rs lines
83-88): the lazily fetched native options struct plus the buffer that
keeps the language C strings alive. -/
structure LibpostalNormalizeOptions where
  ffi : Option libpostal_normalize_options
  lang_buffer : Option (List String)

/-- Model of `LibpostalNormalizeOptions::inner_mut` (src/expand.rs lines
132-135): `self.ffi.get_or_insert(unsafe { libpostal_get_default_options() })`.
Rust evaluates the `get_or_insert` argument eagerly, so the native
defaults fetch is issued on every call; its result is stored only when no
struct is held yet, and discarded otherwise. -/
def LibpostalNormalizeOptions.inner_mut (env : NativeEnv)
    (self : LibpostalNormalizeOptions) :
    libpostal_normalize_options × LibpostalNormalizeOptions × List NativeCall :=
  match self.ffi with
  | some f => (f, self, [NativeCall.getDefaultOptions])
  | none => (env.default_options, { self with ffi := some env.default_options },
      [NativeCall.getDefaultOptions])

/-- Model of `LibpostalNormalizeOptions::free_lang_ptrs` (src/expand.rs
lines 138-151): releases the language pointers.  The memory operations
(`CString::from_raw`, `libc::free`) are not libpostal calls; the only
native call this can issue is the defaults fetch inside `inner_mut`. -/
def LibpostalNormalizeOptions.free_lang_ptrs (env : NativeEnv)
    (self : LibpostalNormalizeOptions) :
    LibpostalNormalizeOptions × List NativeCall :=
  let r := self.inner_mut env
  (r.2.1, r.2.2)

/-- Model of `Drop for LibpostalNormalizeOptions` (src/expand.rs lines
228-232): dropping the value runs `free_lang_ptrs`, whose `inner_mut`
performs the (eager) native defaults fetch; these are the native calls a
drop issues. -/
def LibpostalNormalizeOptions.drop (env : NativeEnv)
    (self : LibpostalNormalizeOptions) : List NativeCall :=
  (self.free_lang_ptrs env).2

/-- Model of `LibpostalNormalizeOptions::update_string_options`
(src/expand.rs lines 154-174): overwrite all 18 native string-transform
toggles from the user's bitset. -/
def LibpostalNormalizeOptions.update_string_options (env : NativeEnv)
    (self : LibpostalNormalizeOptions) (string_options : StringOptions) :
    LibpostalNormalizeOptions × List NativeCall :=
  let r := self.inner_mut env
  let src := r.1
  let dst := string_options
  let src :=
    { src with
      latin_ascii := dst.contains StringOptions.LATIN_ASCII,
      transliterate := dst.contains StringOptions.TRANSLITERATE,
      strip_accents := dst.contains StringOptions.STRIP_ACCENTS,
      decompose := dst.contains StringOptions.DECOMPOSE,
      lowercase := dst.contains StringOptions.LOWERCASE,
      trim_string := dst.contains StringOptions.TRIM_STRING,
      drop_parentheticals := dst.contains StringOptions.DROP_PARENTHETICALS,
      replace_numeric_hyphens := dst.contains StringOptions.REPLACE_NUMERIC_HYPHENS,
      delete_numeric_hyphens := dst.contains StringOptions.DELETE_NUMERIC_HYPHENS,
      split_alpha_from_numeric := dst.contains StringOptions.SPLIT_ALPHA_FROM_NUMERIC,
      replace_word_hyphens := dst.contains StringOptions.REPLACE_WORD_HYPHENS,
      delete_word_hyphens := dst.contains StringOptions.DELETE_WORD_HYPHENS,
      delete_final_periods := dst.contains StringOptions.DELETE_FINAL_PERIODS,
      delete_acronym_periods := dst.contains StringOptions.DELETE_ACRONYM_PERIODS,
      drop_english_possessives := dst.contains StringOptions.DROP_ENGLISH_POSSESSIVES,
      delete_apostrophes := dst.contains StringOptions.DELETE_APOSTROPHES,
      expand_numex := dst.contains StringOptions.EXPAND_NUMEX,
      roman_numerals := dst.contains StringOptions.ROMAN_NUMERALS }
  ({ r.2.1 with ffi := some src }, r.2.2)

/-- Model of `LibpostalNormalizeOptions::update_address_components`
(src/expand.rs lines 177-179): store the user's component bitmask. -/
def LibpostalNormalizeOptions.update_address_components (env : NativeEnv)
    (self : LibpostalNormalizeOptions) (address_components : AddressComponents) :
    LibpostalNormalizeOptions × List NativeCall :=
  let r := self.inner_mut env
  ({ r.2.1 with ffi := some { r.1 with address_components := address_components.bits } },
    r.2.2)

/-- Model of `LibpostalNormalizeOptions::update_languages` (src/expand.rs
lines 182-195): a no-op when a language buffer is already installed;
otherwise free the old pointers, build the C-string buffer (the source
`unwrap`s `CString::new`, so language codes are assumed null-free), and
point the native struct at it, storing its length as `num_languages`. -/
def LibpostalNormalizeOptions.update_languages (env : NativeEnv)
    (self : LibpostalNormalizeOptions) (languages : List String) :
    LibpostalNormalizeOptions × List NativeCall :=
  if self.lang_buffer.isSome then (self, [])
  else
    let r1 := self.free_lang_ptrs env
    let lang_buffer := languages
    let r2 := r1.1.inner_mut env
    let f := { r2.1 with languages := lang_buffer,
                         num_languages := lang_buffer.length }
    ({ r2.2.1 with ffi := some f, lang_buffer := some lang_buffer },
      r1.2 ++ r2.2.2)

/-- Model of `Default for LibpostalNormalizeOptions` (src/expand.rs lines
219-226): fetch the native default options (a native call), no language
buffer. -/
def LibpostalNormalizeOptions.default (env : NativeEnv) :
    LibpostalNormalizeOptions × List NativeCall :=
  ({ ffi := some env.default_options, lang_buffer := none },
    [NativeCall.getDefaultOptions])

/-- Model of `expand::NormalizedAddress` (src/expand.rs lines 123-128):
the owned variation strings plus the count reported by the native call. -/
structure NormalizedAddress where
  variations : List String
  n : Nat
  deriving DecidableEq, Repr

/-- Model of `Default for NormalizedAddress` (src/expand.rs lines
382-389). -/
def NormalizedAddress.default : NormalizedAddress :=
  { variations := [], n := 0 }

/-- One step of the copy loop of `LibpostalNormalizeOptions::expand`
(src/expand.rs lines 205-211): push the entry onto the variations when
the array slot is non-null, skip it otherwise. -/
def expandPush (acc : List String) (entry : Option String) : List String :=
  match entry with
  | some phrase => acc ++ [phrase]
  | none => acc

/-- Model of `LibpostalNormalizeOptions::expand` (src/expand.rs lines
198-216): take the stored native options (the source `unwrap`s here; the
`none` branch models the panic and is unreachable from the public API,
see `libpostal_options_shape`), call the native expansion entry point,
copy each non-null array entry into owned storage in array order, and
destroy the native array exactly once, passing back the same count the
native call reported. -/
def LibpostalNormalizeOptions.expand (env : NativeEnv)
    (self : LibpostalNormalizeOptions) (address : String) :
    NormalizedAddress × List NativeCall :=
  match self.ffi with
  | none => (NormalizedAddress.default, [])
  | some options =>
    let raw := env.expand_address address options
    let n := raw.length
    let variations := raw.foldl expandPush []
    ({ variations := variations, n := n },
      [NativeCall.expandAddress, NativeCall.expansionArrayDestroy n])

/-- Model of `expand::NormalizeOptions` (src/expand.rs lines 115-121).
The source struct has a fourth field named `libpostal_options`; it is
kept here as `libpostal_options_field` (Lean cannot give a field and a
method the same name).  The methods below never read it, exactly as in
the source. -/
structure NormalizeOptions where
  languages : Option (List String)
  address_components : Option AddressComponents
  string_options : Option StringOptions
  libpostal_options_field : LibpostalNormalizeOptions

/-- Model of `Default for NormalizeOptions` (src/expand.rs lines 234-243):
all option fields unset; the `libpostal_options` field is built by
`LibpostalNormalizeOptions::default`, which performs the defaults fetch. -/
def NormalizeOptions.default (env : NativeEnv) :
    NormalizeOptions × List NativeCall :=
  let r := LibpostalNormalizeOptions.default env
  ({ languages := none, address_components := none, string_options := none,
     libpostal_options_field := r.1 }, r.2)

/-- Model of `NormalizeOptions::new` (src/expand.rs lines 249-259):
default options with the language list overridden when given. -/
def NormalizeOptions.new (env : NativeEnv) (languages : Option (List String)) :
    NormalizeOptions × List NativeCall :=
  let r := NormalizeOptions.default env
  match languages with
  | some langs => ({ r.1 with languages := some langs }, r.2)
  | none => r

/-- Model of `NormalizeOptions::add_string_option` (src/expand.rs lines
262-268). -/
def NormalizeOptions.add_string_option (self : NormalizeOptions)
    (option : StringOptions) : NormalizeOptions :=
  match self.string_options with
  | some options => { self with string_options := some (options.insert option) }
  | none => { self with string_options := some option }

/-- Model of `NormalizeOptions::add_address_component` (src/expand.rs
lines 271-277). -/
def NormalizeOptions.add_address_component (self : NormalizeOptions)
    (component : AddressComponents) : NormalizeOptions :=
  match self.address_components with
  | some components =>
    { self with address_components := some (components.insert component) }
  | none => { self with address_components := some component }

/-- Model of `NormalizeOptions::libpostal_options` (src/expand.rs lines
280-292): start from a fresh native default fetch, then apply the string
options, the address components and the languages, in that order, each
only when set. -/
def NormalizeOptions.libpostal_options (env : NativeEnv)
    (self : NormalizeOptions) :
    LibpostalNormalizeOptions × List NativeCall :=
  let r0 := LibpostalNormalizeOptions.default env
  let r1 :=
    match self.string_options with
    | some s => r0.1.update_string_options env s
    | none => (r0.1, [])
  let r2 :=
    match self.address_components with
    | some c => r1.1.update_address_components env c
    | none => (r1.1, [])
  let r3 :=
    match self.languages with
    | some langs => r2.1.update_languages env langs
    | none => (r2.1, [])
  (r3.1, r0.2 ++ r1.2 ++ r2.2 ++ r3.2)

/-- Model of `NormalizeOptions::expand` (src/expand.rs lines 375-379):
build the native options (this fetches the native defaults, possibly
several times via the eager `inner_mut` argument), then run the address
through `CString::new` — so an embedded null byte is detected only after
those defaults fetches — and finally call the native expansion.  On both
exit paths the local `LibpostalNormalizeOptions` value is dropped, which
issues a further defaults fetch (`Drop` → `free_lang_ptrs` → `inner_mut`);
on the success path the dropped value has had its `ffi` taken by the
inner `expand`. -/
def NormalizeOptions.expand (env : NativeEnv) (self : NormalizeOptions)
    (address : String) :
    Except NulError NormalizedAddress × List NativeCall :=
  let r0 := self.libpostal_options env
  match CString.new address with
  | Except.error e => (Except.error e, r0.2 ++ r0.1.drop env)
  | Except.ok c_address =>
    let r1 := r0.1.expand env c_address
    (Except.ok r1.1,
      r0.2 ++ r1.2
        ++ ({ r0.1 with ffi := none } : LibpostalNormalizeOptions).drop env)

/-- Model of `expand::expand_address` (src/expand.rs lines 430-433):
default options, then expand.  The local `NormalizeOptions` value is
dropped at the end of the function, and dropping it drops its
`libpostal_options` field (untouched by the `expand` method), issuing a
final defaults fetch. -/
def expand_address (env : NativeEnv) (address : String) :
    Except NulError NormalizedAddress × List NativeCall :=
  let r0 := NormalizeOptions.default env
  let r1 := r0.1.expand env address
  (r1.1, r0.2 ++ r1.2 ++ r0.1.libpostal_options_field.drop env)

/-- Model of `expand::expand_address_with_options` (src/expand.rs lines
442-452): options from the optional language list, then expand; the
local options value is dropped at the end, as in `expand_address`. -/
def expand_address_with_options (env : NativeEnv) (address : String)
    (languages : Option (List String)) :
    Except NulError NormalizedAddress × List NativeCall :=
  let r0 := NormalizeOptions.new env languages
  let r1 := r0.1.expand env address
  (r1.1, r0.2 ++ r1.2 ++ r0.1.libpostal_options_field.drop env)

/-- A concrete native environment for witnesses: all setups succeed, the
native parser returns null, the native expansion returns an empty array. -/
def exEnv : NativeEnv :=
  { setupOk := true, setupParserOk := true, setupClassifierOk := true,
    address_parser_default_options := { language := none, country := none },
    default_options :=
      { languages := [], num_languages := 0, address_components := 0,
        latin_ascii := false, transliterate := true, strip_accents := true,
        decompose := true, lowercase := true, trim_string := true,
        drop_parentheticals := false, replace_numeric_hyphens := false,
        delete_numeric_hyphens := false, split_alpha_from_numeric := false,
        replace_word_hyphens := false, delete_word_hyphens := false,
        delete_final_periods := false, delete_acronym_periods := false,
        drop_english_possessives := false, delete_apostrophes := false,
        expand_numex := false, roman_numerals := false },
    parse_address := fun _ _ => none,
    expand_address := fun _ _ => [] }

/-- A concrete native environment whose parser emits two labeled
components and whose expansion emits two variants. -/
def respEnv : NativeEnv :=
  { exEnv with
    parse_address := fun _ _ =>
      some { num_components := 2,
             components := ["660", "nostrand ave"],
             labels := ["house_number", "road"] },
    expand_address := fun _ _ => [some "123 main street", some "123 main st"] }

/-- A concrete native environment where the native parser setup fails. -/
def parserFailEnv : NativeEnv := { exEnv with setupParserOk := false }

/-- A concrete address string with an embedded null byte. -/
def nulAddress : String := String.mk [Char.ofNat 97, Char.ofNat 0, Char.ofNat 98]

/-- The native options built by `NormalizeOptions::libpostal_options`
always hold an inner ffi struct. -/
theorem libpostal_options_shape (env : NativeEnv) (self : NormalizeOptions) :
    ∃ f, (self.libpostal_options env).1.ffi = some f := by
  unfold NormalizeOptions.libpostal_options
  cases hs : self.string_options <;> cases hc : self.address_components <;>
    cases hl : self.languages <;>
    simp [LibpostalNormalizeOptions.default,
      LibpostalNormalizeOptions.update_string_options,
      LibpostalNormalizeOptions.update_address_components,
      LibpostalNormalizeOptions.update_languages,
      LibpostalNormalizeOptions.inner_mut,
      LibpostalNormalizeOptions.free_lang_ptrs]

/-- Every native call issued while `NormalizeOptions::libpostal_options`
builds the native options is a defaults fetch — at least one happens
(`Default::default`), and each `inner_mut` inside the updates issues one
more (the `get_or_insert` argument is evaluated eagerly). -/
theorem libpostal_options_trace (env : NativeEnv) (self : NormalizeOptions) :
    (self.libpostal_options env).2 ≠ [] ∧
    ∀ c ∈ (self.libpostal_options env).2, c = NativeCall.getDefaultOptions := by
  unfold NormalizeOptions.libpostal_options
  cases hs : self.string_options <;> cases hc : self.address_components <;>
    cases hl : self.languages <;>
    simp [LibpostalNormalizeOptions.default,
      LibpostalNormalizeOptions.update_string_options,
      LibpostalNormalizeOptions.update_address_components,
      LibpostalNormalizeOptions.update_languages,
      LibpostalNormalizeOptions.inner_mut,
      LibpostalNormalizeOptions.free_lang_ptrs]

/-- Dropping any `LibpostalNormalizeOptions` value issues exactly one
native defaults fetch (the eager `get_or_insert` argument inside the
`inner_mut` reached through `free_lang_ptrs`), whether or not the value
still holds a native struct. -/
theorem drop_trace (env : NativeEnv) (self : LibpostalNormalizeOptions) :
    self.drop env = [NativeCall.getDefaultOptions] := by
  unfold LibpostalNormalizeOptions.drop LibpostalNormalizeOptions.free_lang_ptrs
    LibpostalNormalizeOptions.inner_mut
  cases self.ffi <;> rfl

/-- Unrolling the parse copy loop: after the loop, the response holds the
first `n` entries of each native array, read with the out-of-bounds
default, appended to the initial contents. -/
theorem parse_copy_loop_unroll (cs ls : List String) (n : Nat)
    (t l : List String) :
    ((List.range n).foldl
      (fun r i =>
        { tokens := r.tokens ++ [cs.getD i ""],
          labels := r.labels ++ [ls.getD i ""] })
      ({ tokens := t, labels := l } : AddressParserResponse))
    = { tokens := t ++ (List.range n).map (fun i => cs.getD i ""),
        labels := l ++ (List.range n).map (fun i => ls.getD i "") } := by
  induction n with
  | zero => simp
  | succ k ih =>
    rw [List.range_succ, List.foldl_append, ih]
    simp [List.map_append]

/-- Reading a whole list through `getD` at indices `0..length` gives the
list back. -/
theorem map_getD_range (cs : List String) :
    (List.range cs.length).map (fun i => cs.getD i "") = cs := by
  induction cs with
  | nil => simp
  | cons a as ih =>
    rw [List.length_cons, List.range_succ_eq_map, List.map_cons, List.map_map]
    simp only [Function.comp_def, List.getD_cons_zero, List.getD_cons_succ]
    rw [ih]

/-- Under the native contract (both arrays carry `num_components`
entries), the parse copy loop reproduces the native arrays exactly. -/
theorem parseCopyLoop_eq (parsed : libpostal_address_parser_response)
    (hc : parsed.components.length = parsed.num_components)
    (hl : parsed.labels.length = parsed.num_components) :
    parseCopyLoop parsed
    = { tokens := parsed.components, labels := parsed.labels } := by
  unfold parseCopyLoop AddressParserResponse.new
  rw [parse_copy_loop_unroll]
  simp only [List.nil_append, AddressParserResponse.mk.injEq]
  constructor
  · rw [← hc]
    exact map_getD_range _
  · rw [← hl]
    exact map_getD_range _

/-- The copy loop of the expansion marshaler collects exactly the
non-null array entries, in array order. -/
theorem expand_copy_loop_unroll (raw : List (Option String))
    (acc : List String) :
    raw.foldl expandPush acc = acc ++ raw.filterMap id := by
  induction raw generalizing acc with
  | nil => simp
  | cons e es ih =>
    cases e <;> simp [expandPush, ih, List.filterMap_cons]

/-- When every entry of the array is non-null, collecting the non-null
entries is the identity on the array. -/
theorem filterMap_id_of_all_isSome (raw : List (Option String))
    (h : ∀ e ∈ raw, e.isSome) :
    (raw.filterMap id).map some = raw := by
  induction raw with
  | nil => simp
  | cons e es ih =>
    cases e with
    | none =>
      have := h none (by simp)
      simp at this
    | some v =>
      simp only [List.filterMap_cons, id, List.map_cons, List.cons.injEq, true_and]
      exact ih (fun x hx => h x (List.mem_cons_of_mem _ hx))

/-- Folding point insertions over a pair list looks up the last pair with
the given key. -/
theorem foldl_mapInsert (ps : List (String × String))
    (m : String → Option String) (k : String) :
    (ps.foldl (fun m p => mapInsert m p.1 p.2) m) k
    = match ps.reverse.find? (fun p => p.1 == k) with
      | some p => some p.2
      | none => m k := by
  induction ps generalizing m with
  | nil => simp
  | cons p ps ih =>
    rw [List.foldl_cons, ih, List.reverse_cons, List.find?_append]
    cases hf : ps.reverse.find? (fun q => q.1 == k) with
    | some q => simp [Option.or]
    | none =>
      rcases eq_or_ne p.1 k with hk | hk
      · rw [List.find?_cons_of_pos _ (by simpa using hk)]
        simp [Option.or, mapInsert, hk]
      · rw [List.find?_cons_of_neg _ (by simpa using hk)]
        simp [Option.or, mapInsert, Ne.symm hk]

/-- C1 counterexample: the claim says that on an input with an embedded
null byte `expand_address` returns `InvalidInput` without invoking any
native libpostal call, in particular without
`libpostal_get_default_options`.  On the concrete null-containing input
the error is returned, but the call trace is not empty: it contains
`libpostal_get_default_options` (fetched by `NormalizeOptions::default`
and by `NormalizeOptions::libpostal_options` before the null check in
`NormalizeOptions::expand`). -/
theorem claim_C1_counterexample :
    (expand_address exEnv nulAddress).1 = Except.error NulError.mk ∧
    (expand_address exEnv nulAddress).2
      = [NativeCall.getDefaultOptions, NativeCall.getDefaultOptions,
         NativeCall.getDefaultOptions, NativeCall.getDefaultOptions] ∧
    NativeCall.getDefaultOptions ∈ (expand_address exEnv nulAddress).2 := by
  refine ⟨rfl, rfl, ?_⟩
  decide

/-- C1 (amended): for every input containing an embedded null byte, both
`parse_address` and `NormalizeOptions::expand` return the `NulError`
without invoking the native parse or expansion entry points (and without
any setup, teardown or destructor call); `parse_address` makes no native
call at all before rejecting, while the expand path does make native
calls before the null byte is detected — one or more
`libpostal_get_default_options` defaults fetches (from
`NormalizeOptions::libpostal_options`, whose eager `inner_mut` argument
fetches once per update, and from dropping the built options on the `?`
early return), and every native call it makes is such a defaults fetch. -/
theorem claim_C1_amended (env : NativeEnv) (address : String)
    (language country : Option String) (self : NormalizeOptions)
    (h : containsNul address = true) :
    parse_address env address language country = (Except.error NulError.mk, []) ∧
    (self.expand env address).1 = Except.error NulError.mk ∧
    (self.expand env address).2 ≠ [] ∧
    ∀ c ∈ (self.expand env address).2, c = NativeCall.getDefaultOptions := by
  refine ⟨?_, ?_, ?_, ?_⟩
  · unfold parse_address
    cases hn : AddressParserOptions.new language country with
    | error e => cases e; rfl
    | ok o =>
      unfold AddressParserOptions.parse
      simp [CString.new, h]
  · unfold NormalizeOptions.expand
    simp [CString.new, h]
  · unfold NormalizeOptions.expand
    simp [CString.new, h, drop_trace]
  · intro c hc
    unfold NormalizeOptions.expand at hc
    simp only [CString.new, h, if_true, List.mem_append, drop_trace,
      List.mem_singleton] at hc
    rcases hc with hc | hc
    · exact (libpostal_options_trace env self).2 c hc
    · exact hc

/-- Witness for C1 (amended) at a concrete null-containing input. -/
theorem claim_C1_witness :
    containsNul nulAddress = true ∧
    (parse_address exEnv nulAddress (some "en") none
        = (Except.error NulError.mk, []) ∧
      ((NormalizeOptions.default exEnv).1.expand exEnv nulAddress).1
        = Except.error NulError.mk ∧
      ((NormalizeOptions.default exEnv).1.expand exEnv nulAddress).2 ≠ [] ∧
      ∀ c ∈ ((NormalizeOptions.default exEnv).1.expand exEnv nulAddress).2,
        c = NativeCall.getDefaultOptions) :=
  ⟨by decide,
   claim_C1_amended exEnv nulAddress (some "en") none
     (NormalizeOptions.default exEnv).1 (by decide)⟩

/-- C2: evidence of the code bug — with the base `libpostal_setup`
succeeding and the native parser setup failing, `LibModules::setup`
terminates the process with exit code 1 (via `setup_parser`) instead of
returning the recoverable `SetupError`; the same happens for `All`.  Only
a base-setup failure yields `Err(SetupError)`. -/
theorem claim_C2_process_exit :
    (LibModules.setup parserFailEnv LibModules.Address).1
      = ProcOutcome.exited 1 ∧
    (LibModules.setup parserFailEnv LibModules.All).1
      = ProcOutcome.exited 1 ∧
    (LibModules.setup { parserFailEnv with setupOk := false }
        LibModules.Address).1
      = ProcOutcome.err SetupError.mk :=
  ⟨rfl, rfl, rfl⟩

/-- C3: evidence of the code bug — `<LibModules as Drop>::drop` is a
function of the module value alone; the crate keeps no lifecycle state,
so dropping a `LibModules` value issues these native teardown calls
unconditionally, in particular in the reachable program that creates a
`LibModules` value and drops it without ever calling `setup` (and after a
failed `setup`).  Teardown without a prior successful setup is therefore
not prevented. -/
theorem claim_C3_unguarded_teardown :
    LibModules.drop LibModules.All
      = [NativeCall.teardown, NativeCall.teardownParser,
         NativeCall.teardownClassifier] ∧
    LibModules.drop LibModules.Address
      = [NativeCall.teardown, NativeCall.teardownParser] ∧
    LibModules.drop LibModules.Expand
      = [NativeCall.teardown, NativeCall.teardownClassifier] :=
  ⟨rfl, rfl, rfl⟩

/-- C4: order preservation — for every null-free address accepted by the
parser, when the native library returns a response whose parallel arrays
carry `num_components` entries, the `AddressParserResponse` holds exactly
the native `components` as its tokens and the native `labels` as its
labels, in the same order, and iterating the response yields the
`(label, token)` pairs zipped in that index order. -/
theorem claim_C4_order_preservation (env : NativeEnv)
    (self : AddressParserOptions) (address : String)
    (parsed : libpostal_address_parser_response)
    (h : containsNul address = false)
    (hr : env.parse_address address (self.ffiOptions env) = some parsed)
    (hc : parsed.components.length = parsed.num_components)
    (hl : parsed.labels.length = parsed.num_components) :
    (self.parse env address).1
      = Except.ok { tokens := parsed.components, labels := parsed.labels } ∧
    ({ tokens := parsed.components, labels := parsed.labels } :
        AddressParserResponse).intoIter
      = parsed.labels.zip parsed.components := by
  constructor
  · unfold AddressParserOptions.parse
    simp only [CString.new, h, Bool.false_eq_true, if_false, hr]
    rw [parseCopyLoop_eq parsed hc hl]
  · rfl

/-- Witness for C4 at a concrete environment whose parser emits two
components. -/
theorem claim_C4_witness :
    (containsNul "660 Nostrand Ave" = false ∧
     respEnv.parse_address "660 Nostrand Ave"
        (AddressParserOptions.ffiOptions respEnv
          { language := none, country := none })
       = some { num_components := 2, components := ["660", "nostrand ave"],
                labels := ["house_number", "road"] }) ∧
    ((AddressParserOptions.parse respEnv { language := none, country := none }
        "660 Nostrand Ave").1
      = Except.ok { tokens := ["660", "nostrand ave"],
                    labels := ["house_number", "road"] } ∧
     ({ tokens := ["660", "nostrand ave"], labels := ["house_number", "road"] }
         : AddressParserResponse).intoIter
       = List.zip ["house_number", "road"] ["660", "nostrand ave"]) :=
  ⟨⟨by decide, rfl⟩,
   claim_C4_order_preservation respEnv { language := none, country := none }
     "660 Nostrand Ave"
     { num_components := 2, components := ["660", "nostrand ave"],
       labels := ["house_number", "road"] }
     (by decide) rfl (by decide) (by decide)⟩

/-- C5: for every null-free address, when the stored native options are
present and the native expansion array contains `n` (non-null) strings,
`LibpostalNormalizeOptions::expand` copies all of them into owned storage
in array order (mapping `some` over the variations recovers the array
exactly), records the native count `n`, and issues the matching
destructor `libpostal_expansion_array_destroy` exactly once, with exactly
the count the native call returned. -/
theorem claim_C5_expansion_marshal (env : NativeEnv)
    (self : LibpostalNormalizeOptions) (f : libpostal_normalize_options)
    (address : String) (hf : self.ffi = some f)
    (hs : ∀ e ∈ env.expand_address address f, e.isSome) :
    ((self.expand env address).1.variations).map some
      = env.expand_address address f ∧
    (self.expand env address).1.n = (env.expand_address address f).length ∧
    (self.expand env address).2
      = [NativeCall.expandAddress,
         NativeCall.expansionArrayDestroy (env.expand_address address f).length] := by
  unfold LibpostalNormalizeOptions.expand
  rw [hf]
  refine ⟨?_, rfl, rfl⟩
  simp only [expand_copy_loop_unroll, List.nil_append]
  exact filterMap_id_of_all_isSome _ hs

/-- Witness for C5 at a concrete environment whose expansion emits two
variants. -/
theorem claim_C5_witness :
    (({ ffi := some respEnv.default_options, lang_buffer := none }
        : LibpostalNormalizeOptions).ffi = some respEnv.default_options ∧
     ∀ e ∈ respEnv.expand_address "123 Main St" respEnv.default_options,
       e.isSome) ∧
    ((({ ffi := some respEnv.default_options, lang_buffer := none }
        : LibpostalNormalizeOptions).expand respEnv
          "123 Main St").1.variations.map some
      = respEnv.expand_address "123 Main St" respEnv.default_options ∧
     (({ ffi := some respEnv.default_options, lang_buffer := none }
        : LibpostalNormalizeOptions).expand respEnv "123 Main St").1.n
      = (respEnv.expand_address "123 Main St" respEnv.default_options).length ∧
     (({ ffi := some respEnv.default_options, lang_buffer := none }
        : LibpostalNormalizeOptions).expand respEnv "123 Main St").2
      = [NativeCall.expandAddress,
         NativeCall.expansionArrayDestroy
           (respEnv.expand_address "123 Main St"
             respEnv.default_options).length]) :=
  ⟨⟨rfl, by decide⟩,
   claim_C5_expansion_marshal respEnv
     { ffi := some respEnv.default_options, lang_buffer := none }
     respEnv.default_options "123 Main St" rfl (by decide)⟩

/-- C6: for every null-free address, `AddressParserOptions::parse`
succeeds; when the native parse entry point returns null the result is
the successful empty response (no error); and in every case — null or
not — the trace contains the native response destructor
`libpostal_address_parser_response_destroy` exactly once. -/
theorem claim_C6_null_response (env : NativeEnv)
    (self : AddressParserOptions) (address : String)
    (h : containsNul address = false) :
    (∃ r, (self.parse env address).1 = Except.ok r) ∧
    (env.parse_address address (self.ffiOptions env) = none →
      (self.parse env address).1 = Except.ok AddressParserResponse.new) ∧
    ((self.parse env address).2).count NativeCall.addressParserResponseDestroy
      = 1 := by
  unfold AddressParserOptions.parse
  simp only [CString.new, h, Bool.false_eq_true, if_false]
  refine ⟨?_, ?_, by decide⟩
  · cases hr : env.parse_address address (self.ffiOptions env) <;> simp [hr]
  · intro hn
    simp [hn]

/-- Witness for C6 at a concrete environment whose parser returns null. -/
theorem claim_C6_witness :
    containsNul "St Johns Centre" = false ∧
    ((∃ r, (AddressParserOptions.parse exEnv
        { language := none, country := none } "St Johns Centre").1
          = Except.ok r) ∧
     (exEnv.parse_address "St Johns Centre"
        (AddressParserOptions.ffiOptions exEnv
          { language := none, country := none }) = none →
       (AddressParserOptions.parse exEnv
          { language := none, country := none } "St Johns Centre").1
         = Except.ok AddressParserResponse.new) ∧
     ((AddressParserOptions.parse exEnv { language := none, country := none }
        "St Johns Centre").2).count NativeCall.addressParserResponseDestroy
       = 1) :=
  ⟨by decide,
   claim_C6_null_response exEnv { language := none, country := none }
     "St Johns Centre" (by decide)⟩

/-- C7: converting an `AddressParserResponse` into the named-field
`ParsedAddress` view folds the `(label, token)` pairs in emission order
with last-writer-wins: for every label, the backing map — and hence each
field getter, each being the map applied at its fixed label — returns
the token of the last pair carrying that label, and `none` when the
label does not occur in the response. -/
theorem claim_C7_last_writer_wins (r : AddressParserResponse) (l : String) :
    (ParsedAddress.from_response r).label_to_token l
      = Option.map Prod.snd (r.intoIter.reverse.find? (fun p => p.1 == l)) := by
  show (r.intoIter.foldl (fun m p => mapInsert m p.1 p.2)
      ParsedAddress.default.label_to_token) l = _
  rw [foldl_mapInsert]
  cases hf : r.intoIter.reverse.find? (fun p => p.1 == l) <;>
    simp [ParsedAddress.default]

/-- C8: idempotence of options construction — two builds of the native
options from the same typed options value, against native defaults that
agree field-for-field (the defaults are fetched fresh on each build),
produce identical native structures: the whole
`libpostal_normalize_options` value (component bitmask, all 18 boolean
toggles, language count and the pointed-to language strings) coincides,
and so do the native parse options built from the same
`AddressParserOptions`. -/
theorem claim_C8_idempotent_build (env1 env2 : NativeEnv)
    (self : NormalizeOptions) (po : AddressParserOptions)
    (hd : env1.default_options = env2.default_options)
    (hp : env1.address_parser_default_options
      = env2.address_parser_default_options) :
    (self.libpostal_options env1).1.ffi
      = (self.libpostal_options env2).1.ffi ∧
    po.ffiOptions env1 = po.ffiOptions env2 := by
  constructor
  · unfold NormalizeOptions.libpostal_options
    cases hs : self.string_options <;> cases hc : self.address_components <;>
      cases hl : self.languages <;>
      simp [LibpostalNormalizeOptions.default,
        LibpostalNormalizeOptions.update_string_options,
        LibpostalNormalizeOptions.update_address_components,
        LibpostalNormalizeOptions.update_languages,
        LibpostalNormalizeOptions.inner_mut,
        LibpostalNormalizeOptions.free_lang_ptrs, hd]
  · unfold AddressParserOptions.ffiOptions
    rw [hp]

/-- Witness for C8: two distinct concrete environments that agree on both
native default structures. -/
theorem claim_C8_witness :
    (exEnv.default_options = respEnv.default_options ∧
     exEnv.address_parser_default_options
       = respEnv.address_parser_default_options) ∧
    ((NormalizeOptions.libpostal_options exEnv
        { languages := some ["en"], address_components := none,
          string_options := some StringOptions.LOWERCASE,
          libpostal_options_field :=
            { ffi := some exEnv.default_options, lang_buffer := none } }).1.ffi
      = (NormalizeOptions.libpostal_options respEnv
          { languages := some ["en"], address_components := none,
            string_options := some StringOptions.LOWERCASE,
            libpostal_options_field :=
              { ffi := some exEnv.default_options, lang_buffer := none } }).1.ffi ∧
     AddressParserOptions.ffiOptions exEnv
        { language := some "en", country := none }
      = AddressParserOptions.ffiOptions respEnv
          { language := some "en", country := none }) :=
  ⟨⟨rfl, rfl⟩,
   claim_C8_idempotent_build exEnv respEnv
     { languages := some ["en"], address_components := none,
       string_options := some StringOptions.LOWERCASE,
       libpostal_options_field :=
         { ffi := some exEnv.default_options, lang_buffer := none } }
     { language := some "en", country := none } rfl rfl⟩

/-- C9: every `AddressParserResponse` the parser returns keeps its labels
and tokens in lockstep — the two sequences have equal length, so zipping
them in `intoIter` loses no element; the empty response satisfies the
invariant, and pushing one token together with one label preserves it. -/
theorem claim_C9_parallel_invariant (env : NativeEnv)
    (self : AddressParserOptions) (address : String)
    (r : AddressParserResponse)
    (h : (self.parse env address).1 = Except.ok r) :
    (r.labels.length = r.tokens.length ∧
     r.intoIter.length = r.tokens.length) ∧
    AddressParserResponse.new.labels.length
      = AddressParserResponse.new.tokens.length ∧
    (∀ (x : AddressParserResponse) (c lb : String),
      x.labels.length = x.tokens.length →
      ({ tokens := x.tokens ++ [c], labels := x.labels ++ [lb] }
          : AddressParserResponse).labels.length
        = ({ tokens := x.tokens ++ [c], labels := x.labels ++ [lb] }
            : AddressParserResponse).tokens.length) := by
  refine ⟨?_, rfl, ?_⟩
  · unfold AddressParserOptions.parse at h
    by_cases hcn : containsNul address
    · simp [CString.new, hcn] at h
    · simp only [CString.new, hcn, Bool.false_eq_true, if_false] at h
      cases hr : env.parse_address address (self.ffiOptions env) with
      | none =>
        rw [hr] at h
        simp only [Except.ok.injEq] at h
        subst h
        constructor <;> rfl
      | some parsed =>
        rw [hr] at h
        simp only [Except.ok.injEq] at h
        subst h
        unfold parseCopyLoop AddressParserResponse.new
        rw [parse_copy_loop_unroll]
        simp [AddressParserResponse.intoIter]
  · intro x c lb hx
    simp [hx]

/-- Witness for C9 at a concrete environment (null native response, so
the parser yields the empty response). -/
theorem claim_C9_witness :
    (AddressParserOptions.parse exEnv { language := none, country := none }
        "Bedford").1 = Except.ok AddressParserResponse.new ∧
    ((AddressParserResponse.new.labels.length
        = AddressParserResponse.new.tokens.length ∧
      AddressParserResponse.new.intoIter.length
        = AddressParserResponse.new.tokens.length) ∧
     AddressParserResponse.new.labels.length
       = AddressParserResponse.new.tokens.length ∧
     (∀ (x : AddressParserResponse) (c lb : String),
       x.labels.length = x.tokens.length →
       ({ tokens := x.tokens ++ [c], labels := x.labels ++ [lb] }
           : AddressParserResponse).labels.length
         = ({ tokens := x.tokens ++ [c], labels := x.labels ++ [lb] }
             : AddressParserResponse).tokens.length)) :=
  ⟨rfl,
   claim_C9_parallel_invariant exEnv { language := none, country := none }
     "Bedford" AddressParserResponse.new rfl⟩

/-- C10: when any string-transform option has been added, building the
native options overwrites all 18 native string-transform toggles from the
user's bitset — each toggle equals exactly the membership test in the
user's set (so every toggle not present becomes `false`, regardless of
the native default); when no string option at all was added, all 18
toggles keep the native default values. -/
theorem claim_C10_string_overwrite (env : NativeEnv) (self : NormalizeOptions) :
    (∀ s, self.string_options = some s →
      ((self.libpostal_options env).1.ffi.map (fun f => f.latin_ascii)
          = some (s.contains StringOptions.LATIN_ASCII) ∧
       (self.libpostal_options env).1.ffi.map (fun f => f.transliterate)
          = some (s.contains StringOptions.TRANSLITERATE) ∧
       (self.libpostal_options env).1.ffi.map (fun f => f.strip_accents)
          = some (s.contains StringOptions.STRIP_ACCENTS) ∧
       (self.libpostal_options env).1.ffi.map (fun f => f.decompose)
          = some (s.contains StringOptions.DECOMPOSE) ∧
       (self.libpostal_options env).1.ffi.map (fun f => f.lowercase)
          = some (s.contains StringOptions.LOWERCASE) ∧
       (self.libpostal_options env).1.ffi.map (fun f => f.trim_string)
          = some (s.contains StringOptions.TRIM_STRING) ∧
       (self.libpostal_options env).1.ffi.map (fun f => f.drop_parentheticals)
          = some (s.contains StringOptions.DROP_PARENTHETICALS) ∧
       (self.libpostal_options env).1.ffi.map (fun f => f.replace_numeric_hyphens)
          = some (s.contains StringOptions.REPLACE_NUMERIC_HYPHENS) ∧
       (self.libpostal_options env).1.ffi.map (fun f => f.delete_numeric_hyphens)
          = some (s.contains StringOptions.DELETE_NUMERIC_HYPHENS) ∧
       (self.libpostal_options env).1.ffi.map (fun f => f.split_alpha_from_numeric)
          = some (s.contains StringOptions.SPLIT_ALPHA_FROM_NUMERIC) ∧
       (self.libpostal_options env).1.ffi.map (fun f => f.replace_word_hyphens)
          = some (s.contains StringOptions.REPLACE_WORD_HYPHENS) ∧
       (self.libpostal_options env).1.ffi.map (fun f => f.delete_word_hyphens)
          = some (s.contains StringOptions.DELETE_WORD_HYPHENS) ∧
       (self.libpostal_options env).1.ffi.map (fun f => f.delete_final_periods)
          = some (s.contains StringOptions.DELETE_FINAL_PERIODS) ∧
       (self.libpostal_options env).1.ffi.map (fun f => f.delete_acronym_periods)
          = some (s.contains StringOptions.DELETE_ACRONYM_PERIODS) ∧
       (self.libpostal_options env).1.ffi.map (fun f => f.drop_english_possessives)
          = some (s.contains StringOptions.DROP_ENGLISH_POSSESSIVES) ∧
       (self.libpostal_options env).1.ffi.map (fun f => f.delete_apostrophes)
          = some (s.contains StringOptions.DELETE_APOSTROPHES) ∧
       (self.libpostal_options env).1.ffi.map (fun f => f.expand_numex)
          = some (s.contains StringOptions.EXPAND_NUMEX) ∧
       (self.libpostal_options env).1.ffi.map (fun f => f.roman_numerals)
          = some (s.contains StringOptions.ROMAN_NUMERALS))) ∧
    (self.string_options = none →
      ((self.libpostal_options env).1.ffi.map (fun f => f.latin_ascii)
          = some env.default_options.latin_ascii ∧
       (self.libpostal_options env).1.ffi.map (fun f => f.transliterate)
          = some env.default_options.transliterate ∧
       (self.libpostal_options env).1.ffi.map (fun f => f.strip_accents)
          = some env.default_options.strip_accents ∧
       (self.libpostal_options env).1.ffi.map (fun f => f.decompose)
          = some env.default_options.decompose ∧
       (self.libpostal_options env).1.ffi.map (fun f => f.lowercase)
          = some env.default_options.lowercase ∧
       (self.libpostal_options env).1.ffi.map (fun f => f.trim_string)
          = some env.default_options.trim_string ∧
       (self.libpostal_options env).1.ffi.map (fun f => f.drop_parentheticals)
          = some env.default_options.drop_parentheticals ∧
       (self.libpostal_options env).1.ffi.map (fun f => f.replace_numeric_hyphens)
          = some env.default_options.replace_numeric_hyphens ∧
       (self.libpostal_options env).1.ffi.map (fun f => f.delete_numeric_hyphens)
          = some env.default_options.delete_numeric_hyphens ∧
       (self.libpostal_options env).1.ffi.map (fun f => f.split_alpha_from_numeric)
          = some env.default_options.split_alpha_from_numeric ∧
       (self.libpostal_options env).1.ffi.map (fun f => f.replace_word_hyphens)
          = some env.default_options.replace_word_hyphens ∧
       (self.libpostal_options env).1.ffi.map (fun f => f.delete_word_hyphens)
          = some env.default_options.delete_word_hyphens ∧
       (self.libpostal_options env).1.ffi.map (fun f => f.delete_final_periods)
          = some env.default_options.delete_final_periods ∧
       (self.libpostal_options env).1.ffi.map (fun f => f.delete_acronym_periods)
          = some env.default_options.delete_acronym_periods ∧
       (self.libpostal_options env).1.ffi.map (fun f => f.drop_english_possessives)
          = some env.default_options.drop_english_possessives ∧
       (self.libpostal_options env).1.ffi.map (fun f => f.delete_apostrophes)
          = some env.default_options.delete_apostrophes ∧
       (self.libpostal_options env).1.ffi.map (fun f => f.expand_numex)
          = some env.default_options.expand_numex ∧
       (self.libpostal_options env).1.ffi.map (fun f => f.roman_numerals)
          = some env.default_options.roman_numerals)) := by
  constructor
  · intro s hs
    unfold NormalizeOptions.libpostal_options
    rw [hs]
    cases hc : self.address_components <;> cases hl : self.languages <;>
      simp [LibpostalNormalizeOptions.default,
        LibpostalNormalizeOptions.update_string_options,
        LibpostalNormalizeOptions.update_address_components,
        LibpostalNormalizeOptions.update_languages,
        LibpostalNormalizeOptions.inner_mut,
        LibpostalNormalizeOptions.free_lang_ptrs]
  · intro hs
    unfold NormalizeOptions.libpostal_options
    rw [hs]
    cases hc : self.address_components <;> cases hl : self.languages <;>
      simp [LibpostalNormalizeOptions.default,
        LibpostalNormalizeOptions.update_string_options,
        LibpostalNormalizeOptions.update_address_components,
        LibpostalNormalizeOptions.update_languages,
        LibpostalNormalizeOptions.inner_mut,
        LibpostalNormalizeOptions.free_lang_ptrs]

/-- Witness for C10: a concrete options value carrying only the
`TRANSLITERATE` and `LOWERCASE` string options — the built toggles equal
the membership tests (so for example `latin_ascii` becomes `false` even
though a native default could set it), and a concrete options value with
no string option keeps the native defaults. -/
theorem claim_C10_witness :
    (({ languages := none, address_components := none,
        string_options := some (StringOptions.insert
          StringOptions.TRANSLITERATE StringOptions.LOWERCASE),
        libpostal_options_field :=
          { ffi := some exEnv.default_options, lang_buffer := none } }
        : NormalizeOptions).string_options
      = some (StringOptions.insert StringOptions.TRANSLITERATE
          StringOptions.LOWERCASE)) ∧
    ((NormalizeOptions.libpostal_options exEnv
        { languages := none, address_components := none,
          string_options := some (StringOptions.insert
            StringOptions.TRANSLITERATE StringOptions.LOWERCASE),
          libpostal_options_field :=
            { ffi := some exEnv.default_options, lang_buffer := none } }).1.ffi.map
        (fun f => f.latin_ascii)
      = some ((StringOptions.insert StringOptions.TRANSLITERATE
          StringOptions.LOWERCASE).contains StringOptions.LATIN_ASCII)) :=
  ⟨rfl,
   ((claim_C10_string_overwrite exEnv
       { languages := none, address_components := none,
         string_options := some (StringOptions.insert
           StringOptions.TRANSLITERATE StringOptions.LOWERCASE),
         libpostal_options_field :=
           { ffi := some exEnv.default_options, lang_buffer := none } }).1
     (StringOptions.insert StringOptions.TRANSLITERATE StringOptions.LOWERCASE)
     rfl).1⟩
